import Mathlib

/-!
# Verification of the Azure DevOps MCP diff/comment assembly routines

Shallow embedding of the Python sources:
  - `src/utils/helpers.py`   (`resolve_repo_id_internal`, `get_latest_iteration_id`,
    `get_blob_text`)
  - `src/tools/pull_requests.py` (`get_pull_request_full_diff`)
  - `src/tools/repository.py`  (`resolve_repo_id`, a thin wrapper)

The HTTP transport (an `httpx.Client`) is modelled as oracles: for each endpoint the
environment supplies the response the server would have produced.  `httpx`'s
`Response.raise_for_status()` raises for every response whose status code is not in
the 2xx range; this is modelled by `raise_for_status` below.  Python exceptions
(`RuntimeError` raised by the helpers, `httpx.HTTPStatusError` raised by
`raise_for_status`) are modelled with `Except AdoError`.

JSON dictionaries returned by the service are modelled by structures whose fields are
`Option`-typed where the code accesses them with `.get` (absent key -> `none`); the
Python `x or {}` / `x or []` defaulting idioms and truthiness tests are translated
explicitly at each use site.
-/

namespace AzureDevopsMcp

/-- Errors raised by the embedded code: `httpStatus` for `raise_for_status` on a
non-2xx response (httpx `HTTPStatusError`), `runtime` for an explicit Python
`RuntimeError` with its message. -/
inductive AdoError where
  | httpStatus (status : Nat)
  | runtime (msg : String)
deriving DecidableEq, Repr

/-- `True` exactly for status codes in the 2xx success range, the codes for which
httpx's `raise_for_status` does not raise. -/
def is2xx (status : Nat) : Bool :=
  200 ≤ status && status < 300

/-- `httpx.Response.raise_for_status()`: no-op on 2xx, raises on everything else. -/
def raise_for_status (status : Nat) : Except AdoError Unit :=
  if is2xx status then .ok () else .error (.httpStatus status)

/-- One element of the iterations listing; the code reads only its `id` field. -/
structure Iteration where
  id : Int
deriving DecidableEq, Repr

/-- Response of the iterations-list fetch: status code plus the parsed
`data.get("value", [])` list. -/
structure IterationsResponse where
  status_code : Nat
  value : List Iteration
deriving DecidableEq, Repr

/-- Response of a blob fetch: the code reads `status_code` and `text`. -/
structure BlobResponse where
  status_code : Nat
  text : String
deriving DecidableEq, Repr

/-- The `item` sub-dictionary of a change entry, fields accessed with `.get`. -/
structure FileItem where
  path : Option String
  originalObjectId : Option String
  objectId : Option String
deriving DecidableEq, Repr

/-- One element of the change-entry listing.  The Python loop guards each element
with `isinstance(change, dict)`; `notDict` models a non-dictionary element, and
`mk` a dictionary with its (optional) `item` and `changeType` keys. -/
inductive ChangeEntry where
  | notDict
  | mk (item : Option FileItem) (changeType : Option String)
deriving DecidableEq, Repr

/-- Response of the changes-list fetch: the code reads
`data.get("changeEntries") or data.get("changes") or []`. -/
structure ChangesResponse where
  status_code : Nat
  changeEntries : Option (List ChangeEntry)
  changes : Option (List ChangeEntry)
deriving DecidableEq, Repr

/-- A file position inside a thread context; the code reads only `line`. -/
structure FilePos where
  line : Option Int
deriving DecidableEq, Repr

/-- The `threadContext` dictionary of a comment thread. -/
structure ThreadContext where
  filePath : Option String
  rightFileStart : Option FilePos
  leftFileStart : Option FilePos
deriving DecidableEq, Repr

/-- The `author` dictionary of a comment; the code reads only `displayName`. -/
structure Author where
  displayName : Option String
deriving DecidableEq, Repr

/-- One comment inside a thread, fields accessed with `.get`. -/
structure Comment where
  content : Option String
  author : Option Author
  id : Option Int
deriving DecidableEq, Repr

/-- One comment thread; `thread.get("comments", [])` defaults to the empty list, so
`comments` is a plain list. -/
structure CommentThread where
  threadContext : Option ThreadContext
  status : Option String
  id : Option Int
  comments : List Comment
deriving DecidableEq, Repr

/-- Response of the threads-list fetch. -/
structure ThreadsResponse where
  status_code : Nat
  value : List CommentThread
deriving DecidableEq, Repr

/-- One element of the repositories listing, read by `resolve_repo_id_internal`. -/
structure Repo where
  name : String
  id : String
deriving DecidableEq, Repr

/-- Response of the repositories-list fetch. -/
structure ReposResponse where
  status_code : Nat
  value : List Repo
deriving DecidableEq, Repr

/-- The upstream service as seen by one invocation: the response each endpoint
would return.  The changes listing is keyed by the iteration id interpolated into
its URL, the blob fetch by repository id and object id. -/
structure Upstream where
  iterationsResp : IterationsResponse
  changesResp : Int → ChangesResponse
  blobResp : String → String → BlobResponse
  threadsResp : ThreadsResponse

/-- `helpers.get_latest_iteration_id`: fetch the iterations listing,
`raise_for_status`, default-read `value`, raise `RuntimeError` when it is empty,
otherwise return `iterations[-1]["id"]`. -/
def get_latest_iteration_id (pr_id : Nat) (resp : IterationsResponse) :
    Except AdoError Int :=
  match raise_for_status resp.status_code with
  | .error e => .error e
  | .ok _ =>
    let iterations := resp.value
    match iterations.getLast? with
    | none => .error (.runtime s!"No iterations found for PR #{pr_id}")
    | some latest => .ok latest.id

/-- `helpers.get_blob_text`: empty string when `object_id` is falsy (`None` or
`""`), otherwise fetch the blob and return its text, or empty string when the
status code is anything other than 200.  Total: it never raises. -/
def get_blob_text (blobResp : String → String → BlobResponse) (repo_id : String)
    (object_id : Option String) : String :=
  match object_id with
  | none => ""
  | some oid =>
    if oid.isEmpty then ""
    else
      let resp := blobResp repo_id oid
      if resp.status_code ≠ 200 then "" else resp.text

/-- The per-entry body of the loop in `get_pull_request_full_diff`:
`none` for a non-dictionary entry (the loop `continue`s, appending nothing),
otherwise the formatted block appended to `unified_parts`. -/
def changeBlock (blobResp : String → String → BlobResponse) (repo_id : String) :
    ChangeEntry → Option String
  | .notDict => none
  | .mk item changeType =>
    let it := item.getD ⟨none, none, none⟩
    let path := it.path.getD "<unknown-path>"
    let change_type := changeType.getD "?"
    let original_id := it.originalObjectId
    let new_id := it.objectId
    let original_text :=
      match original_id with
      | some oid => if oid.isEmpty then "" else get_blob_text blobResp repo_id original_id
      | none => ""
    let modified_text :=
      match new_id with
      | some oid => if oid.isEmpty then "" else get_blob_text blobResp repo_id new_id
      | none => ""
    some ("--- a" ++ path ++ "\n" ++ "+++ b" ++ path ++ "\n" ++
      "@@ " ++ change_type ++ " " ++ path ++ " @@\n" ++
      "--- ORIGINAL ---\n" ++ original_text ++ "\n" ++
      "--- MODIFIED ---\n" ++ modified_text ++ "\n")

/-- The accumulated `unified_parts` list: one block per dictionary entry, in
listing order, non-dictionary entries skipped. -/
def unifiedParts (blobResp : String → String → BlobResponse) (repo_id : String)
    (entries : List ChangeEntry) : List String :=
  entries.filterMap (changeBlock blobResp repo_id)

/-- `data.get("changeEntries") or data.get("changes") or []`: the first truthy
operand (a present, non-empty list), else `[]`. -/
def pickEntries (changeEntries changes : Option (List ChangeEntry)) :
    List ChangeEntry :=
  match changeEntries with
  | some l => if l.isEmpty then (match changes with
      | some m => m
      | none => []) else l
  | none => match changes with
    | some m => m
    | none => []

/-- One flattened comment record, the dictionary appended to `comments_out`. -/
structure CommentRecord where
  file : Option String
  line : Option Int
  content : Option String
  author : Option String
  status : Option String
  threadId : Option Int
  commentId : Option Int
deriving DecidableEq, Repr

/-- The line-attribution logic of the thread loop:
`right_start = thread_context.get("rightFileStart") or {}` (and the left analogue),
then `line = right.line if right.line is not None elif left.line is not None`. -/
def threadLine (thread_context : ThreadContext) : Option Int :=
  let right_start := thread_context.rightFileStart.getD ⟨none⟩
  let left_start := thread_context.leftFileStart.getD ⟨none⟩
  match right_start.line with
  | some l => some l
  | none =>
    match left_start.line with
    | some l => some l
    | none => none

/-- The body of the outer thread loop: the records appended to `comments_out` for
one thread, one per comment of `thread.get("comments", [])`, in order. -/
def threadRecords (thread : CommentThread) : List CommentRecord :=
  let thread_context := thread.threadContext.getD ⟨none, none, none⟩
  let file_path := thread_context.filePath
  let line := threadLine thread_context
  let thread_status := thread.status
  let thread_id := thread.id
  thread.comments.map fun c =>
    { file := file_path
      line := line
      content := c.content
      author := (c.author.getD ⟨none⟩).displayName
      status := thread_status
      threadId := thread_id
      commentId := c.id }

/-- The whole `comments_out` accumulator: thread records concatenated in upstream
thread order. -/
def flattenThreads (threads : List CommentThread) : List CommentRecord :=
  (threads.map threadRecords).flatten

/-- The returned payload `{"diff": diff_text, "comments": comments_out}`. -/
structure AssembledReview where
  diff : String
  comments : List CommentRecord
deriving DecidableEq, Repr

/-- `pull_requests.get_pull_request_full_diff`: resolve the latest iteration id,
fetch and `raise_for_status` the changes listing, assemble `diff_text` (the
sentinel sentence when the entry list is empty, otherwise the newline-join of
`unified_parts`), fetch and `raise_for_status` the threads listing, flatten the
threads, and return the two-field payload. -/
def get_pull_request_full_diff (up : Upstream) (repo_id : String) (pr_id : Nat) :
    Except AdoError AssembledReview :=
  match get_latest_iteration_id pr_id up.iterationsResp with
  | .error e => .error e
  | .ok iteration_id =>
    let resp := up.changesResp iteration_id
    match raise_for_status resp.status_code with
    | .error e => .error e
    | .ok _ =>
      let entries := pickEntries resp.changeEntries resp.changes
      let diff_text :=
        if entries.isEmpty then
          s!"No change entries found for PR #{pr_id}."
        else
          String.intercalate "\n" (unifiedParts up.blobResp repo_id entries)
      let threads_resp := up.threadsResp
      match raise_for_status threads_resp.status_code with
      | .error e => .error e
      | .ok _ =>
        let threads := threads_resp.value
        let comments_out := flattenThreads threads
        .ok { diff := diff_text, comments := comments_out }

/-- The character class of the GUID regex `[0-9a-fA-F-]`. -/
def isHexOrDash (c : Char) : Bool :=
  c.isDigit || (('a' ≤ c) && (c ≤ 'f')) || (('A' ≤ c) && (c ≤ 'F')) || c = '-'

/-- `re.fullmatch(r"[0-9a-fA-F-]{36}", repo_key)`: exactly 36 characters, each a
hexadecimal digit or a dash. -/
def guidLike (s : String) : Bool :=
  s.length = 36 && s.data.all isHexOrDash

/-- The lookup loop of `resolve_repo_id_internal`: first repository whose `name`
equals the key, returning its `id`. -/
def findRepo (repo_key : String) : List Repo → Option String
  | [] => none
  | r :: rs => if r.name = repo_key then some r.id else findRepo repo_key rs

/-- `helpers.resolve_repo_id_internal`: return a GUID-looking key unchanged;
otherwise fetch the repositories listing, `raise_for_status`, scan it for the
name, and raise `RuntimeError` when no repository matches. -/
def resolve_repo_id_internal (project : String) (reposResp : ReposResponse)
    (repo_key : String) : Except AdoError String :=
  if guidLike repo_key then .ok repo_key
  else
    match raise_for_status reposResp.status_code with
    | .error e => .error e
    | .ok _ =>
      match findRepo repo_key reposResp.value with
      | some rid => .ok rid
      | none => .error (.runtime
          s!"Could not find repository with name \x27{repo_key}\x27 in project \x27{project}\x27")

/-- `repository.resolve_repo_id`: the MCP tool delegates directly to
`resolve_repo_id_internal`. -/
def resolve_repo_id (project : String) (reposResp : ReposResponse)
    (repo_key : String) : Except AdoError String :=
  resolve_repo_id_internal project reposResp repo_key

/-! ## Spec-side definitions

The following definitions are written from the specification's words (the
`FileChange` data model of §3 and the block / record formats of §4.3, §4.4 and
§8), to be compared with the embedded code above. -/

/-- The spec's `FileChange` record (§3): file path, change kind, optional original
content hash, optional new content hash. -/
structure FileChange where
  path : String
  changeKind : String
  originalHash : Option String
  newHash : Option String
deriving DecidableEq, Repr

/-- The change entry the upstream listing would carry for a spec-level
`FileChange`: a dictionary entry with its path, change type and hashes. -/
def toChangeEntry (fc : FileChange) : ChangeEntry :=
  .mk (some ⟨some fc.path, fc.originalHash, fc.newHash⟩) (some fc.changeKind)

/-- The per-change diff block as the spec describes it (§4.3): the header pair
`--- a<path>` and `+++ b<path>`, the marker line `@@ <changeKind> <path> @@`,
the fetched original text under a literal `--- ORIGINAL ---` marker and the
fetched modified text under a literal `--- MODIFIED ---` marker; the ORIGINAL
section is the empty string when there is no original hash, and symmetrically
for MODIFIED. -/
def specDiffBlock (blobResp : String → String → BlobResponse) (repo_id : String)
    (fc : FileChange) : String :=
  let originalSection :=
    match fc.originalHash with
    | none => ""
    | some h => get_blob_text blobResp repo_id (some h)
  let modifiedSection :=
    match fc.newHash with
    | none => ""
    | some h => get_blob_text blobResp repo_id (some h)
  "--- a" ++ fc.path ++ "\n" ++ "+++ b" ++ fc.path ++ "\n" ++
    "@@ " ++ fc.changeKind ++ " " ++ fc.path ++ " @@\n" ++
    "--- ORIGINAL ---\n" ++ originalSection ++ "\n" ++
    "--- MODIFIED ---\n" ++ modifiedSection ++ "\n"

/-- The right-side anchor line of a thread, "present" meaning the thread context,
its `rightFileStart` and that position's `line` all exist. -/
def specRightLine (t : CommentThread) : Option Int :=
  t.threadContext.bind fun tc => tc.rightFileStart.bind fun p => p.line

/-- The left-side anchor line of a thread, symmetric to `specRightLine`. -/
def specLeftLine (t : CommentThread) : Option Int :=
  t.threadContext.bind fun tc => tc.leftFileStart.bind fun p => p.line

/-- The line-attribution policy as the spec states it (§4.4): the right (new-file)
line when present — even when a left line is also present — otherwise the left
(old-file) line when present, otherwise null. -/
def specThreadLine (t : CommentThread) : Option Int :=
  match specRightLine t with
  | some l => some l
  | none =>
    match specLeftLine t with
    | some l => some l
    | none => none

/-- The file path anchoring a thread, when any. -/
def specThreadFile (t : CommentThread) : Option String :=
  t.threadContext.bind fun tc => tc.filePath

/-- The author display name of a comment, when any. -/
def specCommentAuthor (c : Comment) : Option String :=
  c.author.bind fun a => a.displayName

/-- The flat record the spec describes (§4.4) for comment `c` of thread `t`:
thread-level file, line, status and thread id shared by the whole thread;
content, author and comment id taken from the individual comment. -/
def specCommentRecord (t : CommentThread) (c : Comment) : CommentRecord :=
  { file := specThreadFile t
    line := specThreadLine t
    content := c.content
    author := specCommentAuthor c
    status := t.status
    threadId := t.id
    commentId := c.id }

/-! ## Concrete fixtures

Closed inputs used by witnesses and counterexamples. -/

/-- A blob oracle answering every fetch with status 201 and body `"hello"`:
a 2xx success whose status code is not exactly 200. -/
def blob201 : String → String → BlobResponse := fun _ _ => ⟨201, "hello"⟩

/-- A blob oracle answering every fetch with status 200 and body `"abc"`. -/
def blob200 : String → String → BlobResponse := fun _ _ => ⟨200, "abc"⟩

/-- A blob oracle for the spec's §8 example scenario: hash `"h1"` holds `"old"`,
every other hash holds `"new"`. -/
def blobExample : String → String → BlobResponse :=
  fun _ oid => if oid = "h1" then ⟨200, "old"⟩ else ⟨200, "new"⟩

/-- The §8 example file change: `/src/a.py`, edited, hashes `h1` and `h2`. -/
def fcExample : FileChange :=
  { path := "/src/a.py", changeKind := "edit",
    originalHash := some "h1", newHash := some "h2" }

/-- The §8 example upstream: one iteration (id 7), one change entry, no threads. -/
def upExample : Upstream :=
  { iterationsResp := ⟨200, [⟨7⟩]⟩
    changesResp := fun _ => ⟨200, some [toChangeEntry fcExample], none⟩
    blobResp := blobExample
    threadsResp := ⟨200, []⟩ }

/-- An upstream whose changes listing is empty (both keys absent). -/
def upNoChanges : Upstream :=
  { iterationsResp := ⟨200, [⟨3⟩]⟩
    changesResp := fun _ => ⟨200, none, none⟩
    blobResp := blob200
    threadsResp := ⟨200, []⟩ }

/-- An upstream with one iteration whose structural fetches all fail. -/
def upBadStatus : Upstream :=
  { iterationsResp := ⟨500, [⟨1⟩]⟩
    changesResp := fun _ => ⟨404, none, none⟩
    blobResp := blob200
    threadsResp := ⟨502, []⟩ }

/-- An upstream whose iterations listing is successfully fetched but empty. -/
def upNoIterations : Upstream :=
  { iterationsResp := ⟨200, []⟩
    changesResp := fun _ => ⟨200, none, none⟩
    blobResp := blob200
    threadsResp := ⟨200, []⟩ }

/-- An iterations listing whose last id (3) is not its maximum id (5). -/
def itersResp53 : IterationsResponse := ⟨200, [⟨5⟩, ⟨3⟩]⟩

/-- A thread carrying both a right line (5) and a left line (3), plus one comment. -/
def threadBoth : CommentThread :=
  { threadContext := some ⟨some "/src/a.py", some ⟨some 5⟩, some ⟨some 3⟩⟩
    status := some "active"
    id := some 11
    comments := [{ content := some "why?", author := some ⟨some "Rev"⟩, id := some 21 }] }

/-- The record `threadBoth` flattens to. -/
def recBoth : CommentRecord :=
  { file := some "/src/a.py", line := some 5, content := some "why?",
    author := some "Rev", status := some "active", threadId := some 11,
    commentId := some 21 }

/-- A 36-character key of dashes and hex digits with no GUID group structure. -/
def oddKey36 : String := "------------------------------------"

/-- A repositories listing with one repository. -/
def reposRespOne : ReposResponse := ⟨200, [⟨"road-api", "guid-1"⟩]⟩

/-! ## Helper lemmas -/

/-- Characterization of a fully successful run of `get_pull_request_full_diff`:
when the three structural fetches are 2xx and the iterations listing has a last
element, the result is `ok` with the assembled diff text and flattened comments. -/
theorem full_diff_run (up : Upstream) (repo_id : String) (pr_id : Nat)
    (latest : Iteration)
    (h1 : is2xx up.iterationsResp.status_code = true)
    (h2 : up.iterationsResp.value.getLast? = some latest)
    (h3 : is2xx (up.changesResp latest.id).status_code = true)
    (h4 : is2xx up.threadsResp.status_code = true) :
    get_pull_request_full_diff up repo_id pr_id =
      .ok { diff :=
              if (pickEntries (up.changesResp latest.id).changeEntries
                  (up.changesResp latest.id).changes).isEmpty then
                s!"No change entries found for PR #{pr_id}."
              else
                String.intercalate "\n" (unifiedParts up.blobResp repo_id
                  (pickEntries (up.changesResp latest.id).changeEntries
                    (up.changesResp latest.id).changes)),
            comments := flattenThreads up.threadsResp.value } := by
  simp [get_pull_request_full_diff, get_latest_iteration_id, raise_for_status,
    h1, h2, h3, h4]

/-- The block built for a dictionary change entry equals the spec's block, with
the placeholders `"<unknown-path>"` and `"?"` substituted for missing keys. -/
theorem changeBlock_eq_spec (blob : String → String → BlobResponse)
    (repo_id : String) (path? : Option String) (ct? : Option String)
    (orig new : Option String) :
    changeBlock blob repo_id (.mk (some ⟨path?, orig, new⟩) ct?) =
      some (specDiffBlock blob repo_id
        ⟨path?.getD "<unknown-path>", ct?.getD "?", orig, new⟩) := by
  cases orig with
  | none => cases new with
    | none => simp [changeBlock, specDiffBlock, get_blob_text]
    | some n => by_cases hn : n.isEmpty <;>
        simp [changeBlock, specDiffBlock, get_blob_text, hn]
  | some o => cases new with
    | none => by_cases ho : o.isEmpty <;>
        simp [changeBlock, specDiffBlock, get_blob_text, ho]
    | some n => by_cases hn : n.isEmpty <;> by_cases ho : o.isEmpty <;>
        simp [changeBlock, specDiffBlock, get_blob_text, hn, ho]

/-- The code's defaulted thread-context line equals the spec's attribution. -/
theorem threadLine_eq_spec (t : CommentThread) :
    threadLine (t.threadContext.getD ⟨none, none, none⟩) = specThreadLine t := by
  rcases t with ⟨tc, st, tid, cs⟩
  cases tc with
  | none => rfl
  | some tc =>
    rcases tc with ⟨fp, rs, ls⟩
    cases rs <;> cases ls <;>
      simp [threadLine, specThreadLine, specRightLine, specLeftLine]

/-- The code's defaulted thread-context file path equals the spec's file. -/
theorem threadFile_eq_spec (t : CommentThread) :
    (t.threadContext.getD ⟨none, none, none⟩).filePath = specThreadFile t := by
  rcases t with ⟨tc, st, tid, cs⟩
  cases tc <;> simp [specThreadFile]

/-- The code's defaulted author display name equals the spec's author. -/
theorem commentAuthor_eq_spec (c : Comment) :
    (c.author.getD ⟨none⟩).displayName = specCommentAuthor c := by
  rcases c with ⟨ct, a, i⟩
  cases a <;> simp [specCommentAuthor]

/-- The records a thread flattens to are exactly the spec's records, one per
comment, in comment order. -/
theorem threadRecords_eq_spec (t : CommentThread) :
    threadRecords t = t.comments.map (specCommentRecord t) := by
  unfold threadRecords
  refine List.map_congr_left fun c _ => ?_
  simp only [specCommentRecord, threadLine_eq_spec, threadFile_eq_spec,
    commentAuthor_eq_spec]

/-! ## Claim theorems -/

/-- Claim C1: for a non-empty change-entry listing of dictionary entries, the
diff text of `get_pull_request_full_diff` is the newline-join of one block per
entry, in upstream order, each block being the `--- a<path>` / `+++ b<path>`
header pair, the `@@ <changeType> <path> @@` marker line, the fetched original
text under `--- ORIGINAL ---` and the fetched modified text under
`--- MODIFIED ---`, the ORIGINAL (resp. MODIFIED) section being the empty
string when there is no original (resp. new) hash. -/
theorem full_diff_format (up : Upstream) (repo_id : String) (pr_id : Nat)
    (latest : Iteration) (fcs : List FileChange)
    (h1 : is2xx up.iterationsResp.status_code = true)
    (h2 : up.iterationsResp.value.getLast? = some latest)
    (h3 : is2xx (up.changesResp latest.id).status_code = true)
    (h4 : is2xx up.threadsResp.status_code = true)
    (hne : fcs ≠ [])
    (hentries : pickEntries (up.changesResp latest.id).changeEntries
        (up.changesResp latest.id).changes = fcs.map toChangeEntry) :
    ∃ r, get_pull_request_full_diff up repo_id pr_id = .ok r ∧
      r.diff = String.intercalate "\n"
        (fcs.map (specDiffBlock up.blobResp repo_id)) := by
  refine ⟨_, full_diff_run up repo_id pr_id latest h1 h2 h3 h4, ?_⟩
  have hmap : ∀ l : List FileChange,
      (l.map toChangeEntry).filterMap (changeBlock up.blobResp repo_id) =
        l.map (specDiffBlock up.blobResp repo_id) := by
    intro l
    induction l with
    | nil => rfl
    | cons fc tl ih =>
      simp [toChangeEntry, List.filterMap_cons, changeBlock_eq_spec, ih]
  have hie : (fcs.map toChangeEntry).isEmpty = false := by
    cases fcs with
    | nil => exact absurd rfl hne
    | cons fc tl => rfl
  simp [hentries, unifiedParts, hmap, hie]

/-- Witness for C1: the spec's §8 example scenario, one edited file with both
hashes present. -/
theorem full_diff_format_witness :
    ∃ r, get_pull_request_full_diff upExample "repo-1" 42 = .ok r ∧
      r.diff = String.intercalate "\n"
        ([fcExample].map (specDiffBlock upExample.blobResp "repo-1")) :=
  full_diff_format upExample "repo-1" 42 ⟨7⟩ [fcExample]
    (by decide) (by decide) (by decide) (by decide) (by decide) (by decide)

/-- Claim C2: for a non-empty revision listing, `get_latest_iteration_id`
returns the id of the last element of the listing as returned upstream (it
trusts listing order; it does not compute the maximum id). -/
theorem revision_resolver_last (pr_id : Nat) (resp : IterationsResponse)
    (h200 : is2xx resp.status_code = true) (hne : resp.value ≠ []) :
    get_latest_iteration_id pr_id resp = .ok (resp.value.getLast hne).id := by
  simp [get_latest_iteration_id, raise_for_status, h200,
    List.getLast?_eq_getLast _ hne]

/-- Witness for C2: on the listing `[id 5, id 3]` the resolver returns 3, the
last id, which is not the maximum id 5. -/
theorem revision_resolver_last_witness :
    get_latest_iteration_id 1 itersResp53 = .ok 3 ∧ (3 : Int) ≠ 5 := by
  have h := revision_resolver_last 1 itersResp53 (by decide) (by decide)
  exact ⟨by simpa using h, by decide⟩

/-- Counterexample to Claim C3 as stated: a blob fetch answered with status 201
(a 2xx success) and body `"hello"` makes `get_blob_text` return the empty
string, not the raw text of the fetched content. -/
theorem content_fetcher_counterexample :
    is2xx (blob201 "repo-1" "h1").status_code = true ∧
    (blob201 "repo-1" "h1").text = "hello" ∧
    get_blob_text blob201 "repo-1" (some "h1") = "" := by
  exact ⟨rfl, rfl, rfl⟩

/-- Claim C3 (amended): `get_blob_text` returns the raw response text when the
hash is present, non-empty and the response status is exactly 200, and returns
the empty string — never raising — when the hash is absent or empty or the
status is anything other than 200 (even another 2xx code). -/
theorem content_fetcher_amended (blob : String → String → BlobResponse)
    (repo_id oid : String) :
    get_blob_text blob repo_id none = ""
  ∧ get_blob_text blob repo_id (some "") = ""
  ∧ ((blob repo_id oid).status_code ≠ 200 →
      get_blob_text blob repo_id (some oid) = "")
  ∧ (oid ≠ "" → (blob repo_id oid).status_code = 200 →
      get_blob_text blob repo_id (some oid) = (blob repo_id oid).text) := by
  refine ⟨rfl, rfl, fun hs => ?_, fun hne hs => ?_⟩
  · by_cases he : oid.isEmpty <;> simp [get_blob_text, he, hs]
  · have he : oid.isEmpty = false := by
      cases h : oid.isEmpty with
      | true => exact absurd ((String.isEmpty_iff oid).mp h) hne
      | false => rfl
    simp [get_blob_text, he, hs]

/-- Witness for the amended C3: a status-200 fetch with body `"abc"` is
returned verbatim. -/
theorem content_fetcher_amended_witness :
    get_blob_text blob200 "repo-1" (some "h1") = "abc" := by
  have h := (content_fetcher_amended blob200 "repo-1" "h1").2.2.2
    (by decide) rfl
  simpa using h

/-- Claim C4: every record flattened from a thread carries the line given by
the attribution policy: the right (new-file) line when present — even when a
left line is also present — else the left (old-file) line, else null. -/
theorem comment_line_attribution (t : CommentThread) (r : CommentRecord)
    (hr : r ∈ threadRecords t) : r.line = specThreadLine t := by
  rw [threadRecords_eq_spec] at hr
  obtain ⟨c, _, rfl⟩ := List.mem_map.mp hr
  rfl

/-- Witness for C4: a thread with right line 5 and left line 3 flattens to a
record whose line is the right line, 5. -/
theorem comment_line_attribution_witness :
    recBoth.line = specThreadLine threadBoth ∧ recBoth.line = some 5 :=
  ⟨comment_line_attribution threadBoth recBoth (by decide), by decide⟩

/-- Claim C5: the comment normalizer emits exactly one flat record per comment,
threads in upstream listing order and comments within a thread in upstream
order, each record sharing the thread's file, line, status and thread id and
carrying the comment's content, author and comment id; nothing is dropped,
deduplicated or filtered by resolution state. -/
theorem comment_normalizer_flat (threads : List CommentThread) :
    flattenThreads threads =
      threads.flatMap fun t => t.comments.map (specCommentRecord t) := by
  unfold flattenThreads
  rw [List.map_congr_left fun t _ => threadRecords_eq_spec t]
  simp [List.flatMap]

/-- Claim C6: when the resolved change-entry list is empty, the diff text is
exactly the sentinel sentence `"No change entries found for PR #<id>."` and
nothing else. -/
theorem empty_changes_sentinel (up : Upstream) (repo_id : String) (pr_id : Nat)
    (latest : Iteration)
    (h1 : is2xx up.iterationsResp.status_code = true)
    (h2 : up.iterationsResp.value.getLast? = some latest)
    (h3 : is2xx (up.changesResp latest.id).status_code = true)
    (h4 : is2xx up.threadsResp.status_code = true)
    (hempty : pickEntries (up.changesResp latest.id).changeEntries
        (up.changesResp latest.id).changes = []) :
    get_pull_request_full_diff up repo_id pr_id =
      .ok { diff := s!"No change entries found for PR #{pr_id}.",
            comments := flattenThreads up.threadsResp.value } := by
  rw [full_diff_run up repo_id pr_id latest h1 h2 h3 h4]
  simp [hempty]

/-- Witness for C6: an upstream whose changes listing carries neither a
`changeEntries` nor a `changes` key. -/
theorem empty_changes_sentinel_witness :
    get_pull_request_full_diff upNoChanges "repo-1" 8 =
      .ok { diff := "No change entries found for PR #8.", comments := [] } := by
  have h := empty_changes_sentinel upNoChanges "repo-1" 8 ⟨3⟩
    (by decide) (by decide) (by decide) (by decide) (by decide)
  simpa using h

/-- Claim C7: a change-set with an (successfully fetched) empty revision
listing makes the revision resolver fail with the no-iterations error rather
than return a value, and `get_pull_request_full_diff` surfaces that same error
to its caller. -/
theorem empty_revisions_error (pr_id : Nat) (resp : IterationsResponse)
    (h200 : is2xx resp.status_code = true) (hempty : resp.value = []) :
    get_latest_iteration_id pr_id resp =
      .error (.runtime s!"No iterations found for PR #{pr_id}")
  ∧ ∀ (up : Upstream) (repo_id : String), up.iterationsResp = resp →
      get_pull_request_full_diff up repo_id pr_id =
        .error (.runtime s!"No iterations found for PR #{pr_id}") := by
  have hres : get_latest_iteration_id pr_id resp =
      .error (.runtime s!"No iterations found for PR #{pr_id}") := by
    simp [get_latest_iteration_id, raise_for_status, h200, hempty]
  refine ⟨hres, fun up repo_id hup => ?_⟩
  simp [get_pull_request_full_diff, hup, hres]

/-- Witness for C7: a 200 listing with zero iterations. -/
theorem empty_revisions_error_witness :
    get_pull_request_full_diff upNoIterations "repo-1" 9 =
      .error (.runtime "No iterations found for PR #9") := by
  have h := (empty_revisions_error 9 upNoIterations.iterationsResp
    (by decide) (by decide)).2 upNoIterations "repo-1" rfl
  simpa using h

/-- Claim C8: a non-2xx response from any of the three structural fetches
(revision list, change list, thread list) aborts `get_pull_request_full_diff`
with an error, so no partial payload reaches the caller; and whenever the three
structural fetches are 2xx the call succeeds for every blob oracle whatsoever —
per-file content fetches are the only ones insulated from errors. -/
theorem structural_error_propagation (up : Upstream) (repo_id : String)
    (pr_id : Nat) (latest : Iteration)
    (hlast : up.iterationsResp.value.getLast? = some latest) :
    (is2xx up.iterationsResp.status_code = false →
      get_pull_request_full_diff up repo_id pr_id =
        .error (.httpStatus up.iterationsResp.status_code))
  ∧ (is2xx up.iterationsResp.status_code = true →
     is2xx (up.changesResp latest.id).status_code = false →
      get_pull_request_full_diff up repo_id pr_id =
        .error (.httpStatus (up.changesResp latest.id).status_code))
  ∧ (is2xx up.iterationsResp.status_code = true →
     is2xx (up.changesResp latest.id).status_code = true →
     is2xx up.threadsResp.status_code = false →
      get_pull_request_full_diff up repo_id pr_id =
        .error (.httpStatus up.threadsResp.status_code))
  ∧ (is2xx up.iterationsResp.status_code = true →
     is2xx (up.changesResp latest.id).status_code = true →
     is2xx up.threadsResp.status_code = true →
      ∃ r, get_pull_request_full_diff up repo_id pr_id = .ok r) := by
  refine ⟨fun hbad => ?_, fun h1 hbad => ?_, fun h1 h3 hbad => ?_,
    fun h1 h3 h4 => ⟨_, full_diff_run up repo_id pr_id latest h1 hlast h3 h4⟩⟩
  · simp [get_pull_request_full_diff, get_latest_iteration_id,
      raise_for_status, hbad]
  · simp [get_pull_request_full_diff, get_latest_iteration_id,
      raise_for_status, h1, hlast, hbad]
  · simp [get_pull_request_full_diff, get_latest_iteration_id,
      raise_for_status, h1, hlast, h3, hbad]

/-- Witness for C8: a 500 on the iterations fetch aborts the whole call. -/
theorem structural_error_propagation_witness :
    get_pull_request_full_diff upBadStatus "repo-1" 9 =
      .error (.httpStatus 500) := by
  have h := (structural_error_propagation upBadStatus "repo-1" 9 ⟨1⟩
    (by decide)).1 (by decide)
  simpa using h

/-- Claim C9: a non-dictionary change entry is silently skipped (it contributes
no block and raises no error), and a dictionary entry missing its item path or
change type still yields a block, with the placeholders `"<unknown-path>"`
and `"?"`. -/
theorem malformed_change_entries (blob : String → String → BlobResponse)
    (repo_id : String) (xs ys : List ChangeEntry) (orig new : Option String) :
    unifiedParts blob repo_id (xs ++ ChangeEntry.notDict :: ys) =
      unifiedParts blob repo_id (xs ++ ys)
  ∧ changeBlock blob repo_id .notDict = none
  ∧ changeBlock blob repo_id (.mk (some ⟨none, orig, new⟩) none) =
      some (specDiffBlock blob repo_id ⟨"<unknown-path>", "?", orig, new⟩)
  ∧ changeBlock blob repo_id (.mk none none) =
      some (specDiffBlock blob repo_id ⟨"<unknown-path>", "?", none, none⟩) := by
  refine ⟨?_, rfl, ?_, ?_⟩
  · simp [unifiedParts, List.filterMap_append, List.filterMap_cons, changeBlock]
  · simpa using changeBlock_eq_spec blob repo_id none none orig new
  · simp [changeBlock, specDiffBlock, get_blob_text]

/-- Claim C10: a 36-character key drawn from hexadecimal digits and dashes (in
any arrangement, with no structural GUID validation) is returned unchanged by
`resolve_repo_id` with no repository lookup (the result is the same for every
repositories listing); any other key is resolved through the listing, a match
returning the repository's GUID and a key matching no listed repository
raising an error. -/
theorem resolve_repo_guid_bypass (project repo_key : String)
    (resp : ReposResponse) :
    (guidLike repo_key = true →
      ∀ resp2 : ReposResponse,
        resolve_repo_id project resp2 repo_key = .ok repo_key)
  ∧ (guidLike repo_key =
      (repo_key.length = 36 && repo_key.data.all isHexOrDash))
  ∧ (guidLike repo_key = false → is2xx resp.status_code = true →
      findRepo repo_key resp.value = none →
      resolve_repo_id project resp repo_key = .error (.runtime
        s!"Could not find repository with name \x27{repo_key}\x27 in project \x27{project}\x27"))
  ∧ (guidLike repo_key = false → is2xx resp.status_code = true →
      ∀ rid : String, findRepo repo_key resp.value = some rid →
        resolve_repo_id project resp repo_key = .ok rid) := by
  refine ⟨fun hg resp2 => ?_, rfl, fun hg h200 hnone => ?_,
    fun hg h200 rid hrid => ?_⟩
  · simp [resolve_repo_id, resolve_repo_id_internal, hg]
  · simp [resolve_repo_id, resolve_repo_id_internal, raise_for_status,
      hg, h200, hnone]
  · simp [resolve_repo_id, resolve_repo_id_internal, raise_for_status,
      hg, h200, hrid]

/-- Witness for C10: 36 dashes (no GUID group structure at all) pass through
unchanged for any listing, and the name `"road-api"` resolves through the
listing to `"guid-1"`. -/
theorem resolve_repo_guid_bypass_witness :
    resolve_repo_id "proj" reposRespOne oddKey36 = .ok oddKey36 ∧
    resolve_repo_id "proj" reposRespOne "road-api" = .ok "guid-1" :=
  ⟨(resolve_repo_guid_bypass "proj" oddKey36 reposRespOne).1 (by decide)
      reposRespOne,
   (resolve_repo_guid_bypass "proj" "road-api" reposRespOne).2.2.2 (by decide)
      (by decide) "guid-1" (by decide)⟩

end AzureDevopsMcp
